import Mathlib

/-!
Verification of the `characteristic` library (characteristic.py), a
declarative record-behavior synthesizer: given a list of declared
attributes it attaches comparison methods, a repr, an immutability
sentry and an initializer to a target class.

The shallow embedding below translates the Python source:
  * Python values that occur in the claims are modelled by `Val`
    (integers, strings, `None`); the `NOTHING` sentinel is modelled
    by `Option.none` at the places where the source compares against
    it by identity.
  * a Python object is `Obj`: a runtime class identity plus an ordered
    field store; `object.__setattr__` is `rawSetattr`.
  * a Python class is `Cls`: the method slots that the decorators of
    the source read and write (`__eq__`-family, `__repr__`,
    `__setattr__`, `__original_setattr__`, `__init__`,
    `__original_init__`, `__characteristic_setattr__`).
  * exceptions are `Except String`; the `NotImplemented` convention of
    the comparison methods is the `PyCmp.notImplemented` constructor.
  * the caller frame inspected by `sys._getframe().f_back` is `Frame`:
    the compile-time code name `co_name` that the sentry reads, plus a
    function identity `func_id` that the sentry does not read.
  * the built-in `hash` of a tuple is modelled by `pyHash`, a fixed
    deterministic function of the tuple; the source relies on nothing
    about it beyond determinism.
-/

namespace Characteristic

/-- Python values appearing in the claims: integers, strings, `None`. -/
inductive Val where
  | vint : Int → Val
  | vstr : String → Val
  | vnone : Val
deriving DecidableEq, Repr

/-- Python truthiness of a `Val` (`if default_value:` in `with_init`). -/
def Val.truthy : Val → Bool
  | .vint n => n != 0
  | .vstr s => s ≠ ""
  | .vnone => false

/-- Default strategy stored by `Attribute.__init__`: the `_default`
slot holding `NOTHING`, the `_default` slot holding a value, or the
`_default_factory` slot holding a factory. -/
inductive DefaultSpec where
  | noDefault : DefaultSpec
  | value : Val → DefaultSpec
  | factory : (Unit → Val) → DefaultSpec

/-- The `Attribute` class: a name plus the stored default strategy. -/
structure Attribute where
  name : String
  default : DefaultSpec

/-- Error message raised by `Attribute.__init__` when both
`default_value` and `default_factory` are passed. -/
def ambiguousMsg : String :=
  "Passing both default_value and default_factory is ambiguous."

/-- `Attribute.__init__(name, default_value=NOTHING, default_factory=None)`:
`none` for `default_value` models the `NOTHING` sentinel and `none` for
`default_factory` models Python `None`.  Raises `ValueError` when both
are passed; otherwise stores the default value, else the factory, else
`NOTHING`. -/
def Attribute.init (name : String) (default_value : Option Val)
    (default_factory : Option (Unit → Val)) : Except String Attribute :=
  if default_value.isSome && default_factory.isSome then
    .error ambiguousMsg
  else
    match default_value with
    | some v => .ok ⟨name, .value v⟩
    | none =>
      match default_factory with
      | some f => .ok ⟨name, .factory f⟩
      | none => .ok ⟨name, .noDefault⟩

/-- Reading `a._default` (via `__getattr__` when only the factory is
set): the stored value, the factory's result, or `NOTHING` (`none`). -/
def resolveDefault : DefaultSpec → Option Val
  | .noDefault => none
  | .value v => some v
  | .factory f => some (f ())

/-- An element of the `attrs` argument of the decorators: a plain
string name or an `Attribute` instance. -/
inductive AttrOrName where
  | name : String → AttrOrName
  | spec : Attribute → AttrOrName

/-- `_ensure_attributes`: wrap every plain name into an `Attribute`. -/
def _ensure_attributes (attrs : List AttrOrName) : List Attribute :=
  attrs.map fun
    | .name s => ⟨s, .noDefault⟩
    | .spec a => a

/-- A Python object: runtime class identity and ordered field store. -/
structure Obj where
  cls : String
  fields : List (String × Val)
deriving DecidableEq, Repr

/-- Update an ordered field store at a name (overwrite or append). -/
def setField : List (String × Val) → String → Val → List (String × Val)
  | [], n, v => [(n, v)]
  | (k, w) :: rest, n, v =>
    if k = n then (n, v) :: rest else (k, w) :: setField rest n v

/-- Look a name up in an ordered field store. -/
def getField : List (String × Val) → String → Option Val
  | [], _ => none
  | (k, v) :: rest, n => if k = n then some v else getField rest n

/-- `object.__setattr__`: the raw, unguarded field write. -/
def rawSetattr (o : Obj) (n : String) (v : Val) : Obj :=
  { o with fields := setField o.fields n v }

/-- `kw.pop(name, NOTHING)`: the looked-up value (or `none`) together
with the keyword dictionary with that key removed. -/
def popKw (kw : List (String × Val)) (n : String) :
    Option Val × List (String × Val) :=
  match kw with
  | [] => (none, [])
  | (k, v) :: rest =>
    if k = n then (some v, rest)
    else
      let r := popKw rest n
      (r.1, (k, v) :: r.2)

/-- Error message of `characteristic_init` for a missing required
attribute: it interpolates only the attribute name. -/
def missingMsg (n : String) : String :=
  "Missing keyword value for '" ++ n ++ "'."

/-- `characteristic_init(self, *args, **kw)`: for each declared
attribute in order, pop the keyword argument, fall back to
`a._default` (value or factory), raise `ValueError` if still
`NOTHING`, and write via `self.__characteristic_setattr__` — which the
composition binds to the raw write path (see `with_initWrap`).  On
success it returns the initialized object together with the leftover
keyword arguments that are passed on to `__original_init__`. -/
def characteristic_init : List Attribute → Obj → List (String × Val) →
    Except String (Obj × List (String × Val))
  | [], self, kw => .ok (self, kw)
  | a :: rest, self, kw =>
    let p := popKw kw a.name
    let v : Option Val :=
      match p.1 with
      | some v => some v
      | none => resolveDefault a.default
    match v with
    | none => .error (missingMsg a.name)
    | some v => characteristic_init rest (rawSetattr self a.name v) p.2

/-- Error message raised by `with_init` when a `defaults` mapping is
mixed with `Attribute` instances. -/
def mixingMsg : String :=
  "Mixing of the 'defaults' keyword argument and passing " ++
  "instances of Attribute for 'attrs' is prohibited.  " ++
  "Please don't use 'defaults' anymore, it has been " ++
  "deprecated in 14.0."

/-- The normalization loop at the bottom of `with_init(attrs, defaults)`:
an `Attribute` instance is rejected when `defaults` is non-empty,
and a plain name receives `Attribute(a, default_value=defaults.get(a))`
only when the looked-up default is truthy (`if default_value:`). -/
def with_initTransform : List AttrOrName → List (String × Val) →
    Except String (List Attribute)
  | [], _ => .ok []
  | .spec a :: rest, defaults =>
    if defaults ≠ [] then .error mixingMsg
    else do
      let r ← with_initTransform rest defaults
      return a :: r
  | .name s :: rest, defaults => do
    let r ← with_initTransform rest defaults
    match getField defaults s with
    | some v =>
      if v.truthy then return ⟨s, .value v⟩ :: r
      else return ⟨s, .noDefault⟩ :: r
    | none => return ⟨s, .noDefault⟩ :: r

/-- Result of a Python rich-comparison method: a raised exception, the
`NotImplemented` deferral, or a boolean result. -/
inductive PyCmp where
  | raise : String → PyCmp
  | notImplemented : PyCmp
  | result : Bool → PyCmp
deriving DecidableEq, Repr

/-- `attrs_to_tuple(obj)` (inside `with_cmp`): the tuple of the values
of the declared attributes, in order; `none` models the
`AttributeError` that `getattr` raises on a missing field. -/
def attrs_to_tuple (attrs : List Attribute) (o : Obj) : Option (List Val) :=
  attrs.mapM fun a => getField o.fields a.name

/-- Ordering of two `Val`s as Python `<` sees them: integers and
strings compare within their own type, anything else raises
`TypeError`.  Only called on non-equal values (see `tupCmpExc`). -/
def valCmpExc : Val → Val → Except String Ordering
  | .vint a, .vint b =>
    .ok (if a < b then .lt else if b < a then .gt else .eq)
  | .vstr a, .vstr b =>
    .ok (if a < b then .lt else if b < a then .gt else .eq)
  | _, _ => .error "TypeError: unorderable types"

/-- Python tuple comparison: find the first position where the
elements differ (by `==`), decide there by `<`; a strict prefix is
smaller. -/
def tupCmpExc : List Val → List Val → Except String Ordering
  | [], [] => .ok .eq
  | [], _ :: _ => .ok .lt
  | _ :: _, [] => .ok .gt
  | a :: as, b :: bs => if a = b then tupCmpExc as bs else valCmpExc a b

/-- `eq(self, other)` of `with_cmp`: `NotImplemented` unless the
runtime classes are identical, else tuple equality of the attribute
values. -/
def with_cmp_eq (attrs : List Attribute) (self other : Obj) : PyCmp :=
  if other.cls = self.cls then
    match attrs_to_tuple attrs self, attrs_to_tuple attrs other with
    | some t1, some t2 => .result (decide (t1 = t2))
    | _, _ => .raise "AttributeError"
  else .notImplemented

/-- `ne(self, other)` of `with_cmp`: run `eq`, pass `NotImplemented`
through unchanged, negate a boolean result (a raise propagates). -/
def with_cmp_ne (attrs : List Attribute) (self other : Obj) : PyCmp :=
  match with_cmp_eq attrs self other with
  | .notImplemented => .notImplemented
  | .result b => .result (!b)
  | .raise m => .raise m

/-- Shared shape of the four ordering methods of `with_cmp`: gate on
identical runtime classes, build both tuples, compare them, and turn
the resulting `Ordering` into a boolean with `keep`. -/
def with_cmp_ord (keep : Ordering → Bool) (attrs : List Attribute)
    (self other : Obj) : PyCmp :=
  if other.cls = self.cls then
    match attrs_to_tuple attrs self, attrs_to_tuple attrs other with
    | some t1, some t2 =>
      match tupCmpExc t1 t2 with
      | .ok o => .result (keep o)
      | .error m => .raise m
    | _, _ => .raise "AttributeError"
  else .notImplemented

/-- `lt(self, other)` of `with_cmp`. -/
def with_cmp_lt (attrs : List Attribute) (self other : Obj) : PyCmp :=
  with_cmp_ord (fun o => o = Ordering.lt) attrs self other

/-- `le(self, other)` of `with_cmp`. -/
def with_cmp_le (attrs : List Attribute) (self other : Obj) : PyCmp :=
  with_cmp_ord (fun o => o ≠ Ordering.gt) attrs self other

/-- `gt(self, other)` of `with_cmp`. -/
def with_cmp_gt (attrs : List Attribute) (self other : Obj) : PyCmp :=
  with_cmp_ord (fun o => o = Ordering.gt) attrs self other

/-- `ge(self, other)` of `with_cmp`. -/
def with_cmp_ge (attrs : List Attribute) (self other : Obj) : PyCmp :=
  with_cmp_ord (fun o => o ≠ Ordering.lt) attrs self other

/-- Model of the built-in `hash` on a single value: any fixed
deterministic function serves. -/
def valHash : Val → Int
  | .vint n => n
  | .vstr s => 777 + Int.ofNat (s.toList.foldl (fun h c => h * 31 + c.toNat) 7)
  | .vnone => 999

/-- Model of the built-in `hash` on a tuple: a fixed deterministic
fold over the elements. -/
def pyHash (t : List Val) : Int :=
  t.foldl (fun h v => h * 1000003 + valHash v) 3430008

/-- `hash_(self)` of `with_cmp`: `hash(attrs_to_tuple(self))`. -/
def with_cmp_hash (attrs : List Attribute) (o : Obj) : Except String Int :=
  match attrs_to_tuple attrs o with
  | some t => .ok (pyHash t)
  | none => .error "AttributeError"

/-- The spec's description of `notEquals`: the logical negation of
`equals`, propagating the "not comparable" signal (and any raise)
unchanged.  Stated from the spec to compare with `with_cmp_ne`. -/
def specNegate : PyCmp → PyCmp
  | .result b => .result (!b)
  | .notImplemented => .notImplemented
  | .raise m => .raise m

/-- A caller frame as seen through `sys._getframe().f_back`: the
compile-time code name `co_name` (all the sentry reads) and the
identity of the function object it belongs to (which the sentry does
not read). -/
structure Frame where
  co_name : String
  func_id : Nat
deriving DecidableEq, Repr

/-- `_VALID_INITS`: the frozenset of caller code names the sentry
accepts. -/
def _VALID_INITS : List String := ["characteristic_init", "__init__"]

/-- Error message of the immutability sentry, naming the attribute and
the class. -/
def immutMsg (attr cls : String) : String :=
  "Attribute '" ++ attr ++ "' of class '" ++ cls ++ "' is immutable."

/-- `prev is not None and prev.f_code.co_name in _VALID_INITS`. -/
def frameAllowed (prev : Option Frame) : Bool :=
  match prev with
  | some f => decide (f.co_name ∈ _VALID_INITS)
  | none => false

/-- `characteristic_immutability_sentry(self, attr, value)`: write via
`__original_setattr__` (the raw write of the composed class) when the
attribute is not protected or the caller frame's code name is in
`_VALID_INITS`; otherwise raise `TypeError`. -/
def characteristic_immutability_sentry (attrs : List String)
    (prev : Option Frame) (self : Obj) (attr : String) (value : Val) :
    Except String Obj :=
  if attr ∉ attrs ∨ frameAllowed prev = true then
    .ok (rawSetattr self attr value)
  else
    .error (immutMsg attr self.cls)

/-- A `__setattr__` slot of a class: the default raw write, or the
immutability sentry closed over a protected-name set. -/
inductive SetattrSlot where
  | default : SetattrSlot
  | sentry : List String → SetattrSlot
deriving DecidableEq, Repr

/-- An `__init__` slot of a class: a user-defined method (opaque
identity) or the synthesized `characteristic_init` closed over the
normalized attribute list. -/
inductive InitSlot where
  | user : Nat → InitSlot
  | characteristic : List Attribute → InitSlot

/-- The method slots of a Python class that the decorators read and
write. -/
structure Cls where
  name : String
  eq_attrs : Option (List Attribute) := none
  repr_attrs : Option (List Attribute) := none
  setattr : SetattrSlot := .default
  original_setattr : Option SetattrSlot := none
  init : InitSlot := .user 0
  original_init : Option InitSlot := none
  characteristic_setattr : Option SetattrSlot := none

/-- `with_cmp(attrs)`'s `wrap`: install the comparison methods, built
over the ensured attribute list. -/
def with_cmpWrap (attrs : List AttrOrName) (cl : Cls) : Cls :=
  { cl with eq_attrs := some (_ensure_attributes attrs) }

/-- `with_repr(attrs)`'s `wrap`: install `__repr__`, built over the
ensured attribute list. -/
def with_reprWrap (attrs : List AttrOrName) (cl : Cls) : Cls :=
  { cl with repr_attrs := some (_ensure_attributes attrs) }

/-- The protected-name set computed at the top of `immutable(attrs)`. -/
def protectedNames (attrs : List AttrOrName) : List String :=
  (_ensure_attributes attrs).map (·.name)

/-- `immutable(attrs)`'s `wrap`: capture the current `__setattr__` in
`__original_setattr__`, then replace `__setattr__` by the sentry. -/
def immutableWrap (attrs : List AttrOrName) (cl : Cls) : Cls :=
  { cl with
      original_setattr := some cl.setattr,
      setattr := .sentry (protectedNames attrs) }

/-- `with_init`'s `wrap`: rename `__init__` to `__original_init__`,
install `characteristic_init`, and bind `__characteristic_setattr__`
to `getattr(cl, "__original_setattr__", cl.__setattr__)` — the
pre-sentry write when the sentry was installed earlier. -/
def with_initWrap (attrs2 : List Attribute) (cl : Cls) : Cls :=
  { cl with
      original_init := some cl.init,
      init := .characteristic attrs2,
      characteristic_setattr := some (cl.original_setattr.getD cl.setattr) }

/-- `attributes(attrs, defaults, create_init, make_immutable)`'s
`wrap`, with an event trace recording the order in which the
decorators mutate the class.  The source applies
`with_cmp(attrs)(with_repr(attrs)(cl))`, so `with_repr` mutates the
class before `with_cmp`; then optionally `immutable`; then optionally
`with_init`, whose normalization loop can raise before its `wrap`
runs.  The returned triple is the class state when composition
finished or when the error escaped, the trace, and the error. -/
def attributesWrap (attrs : List AttrOrName)
    (defaults : Option (List (String × Val)))
    (create_init make_immutable : Bool) (cl : Cls) :
    Cls × List String × Option String :=
  let cl1 := with_cmpWrap attrs (with_reprWrap attrs cl)
  let ev1 := ["with_repr", "with_cmp"]
  let s2 :=
    if make_immutable then (immutableWrap attrs cl1, ev1 ++ ["immutable"])
    else (cl1, ev1)
  if create_init then
    match with_initTransform attrs (defaults.getD []) with
    | .error e => (s2.1, s2.2, some e)
    | .ok attrs2 => (with_initWrap attrs2 s2.1, s2.2 ++ ["with_init"], none)
  else (s2.1, s2.2, none)

/-! Concrete fixtures used by the witnesses and counterexamples: a
record type `P` with attributes `[x, y]` declared in that order, a
handful of its instances, an instance of an unrelated type `Q`, and a
fresh target class `T`. -/

/-- The attribute list `[x, y]`, both attributes required. -/
def attrsXY : List Attribute := [⟨"x", .noDefault⟩, ⟨"y", .noDefault⟩]

/-- An instance of `P` with `x=1, y=2`. -/
def oA : Obj := ⟨"P", [("x", .vint 1), ("y", .vint 2)]⟩

/-- An instance of `P` with `x=1, y=3`. -/
def oB : Obj := ⟨"P", [("x", .vint 1), ("y", .vint 3)]⟩

/-- An instance of `P` with `x=2, y=0`. -/
def oC : Obj := ⟨"P", [("x", .vint 2), ("y", .vint 0)]⟩

/-- An instance of `P` with `x=1, y=9`. -/
def oD : Obj := ⟨"P", [("x", .vint 1), ("y", .vint 9)]⟩

/-- An instance of the unrelated type `Q` with the same field values
as `oA`. -/
def oE : Obj := ⟨"Q", [("x", .vint 1), ("y", .vint 2)]⟩

/-- A distinct instance of `P` whose field store lists the same values
as `oA` in a different insertion order. -/
def oF : Obj := ⟨"P", [("y", .vint 2), ("x", .vint 1)]⟩

/-- A fresh target class `T` with no behavior attached yet. -/
def cls0 : Cls := { name := "T" }

/-- Claim C8: constructing an `Attribute` with both a default value and
a default factory fails with the conflicting-default-strategy error at
construction time; supplying at most one of the two (or neither)
succeeds with an attribute of the requested name. -/
theorem C8_conflicting_default_strategy (name : String) (dv : Option Val)
    (df : Option (Unit → Val)) :
    (dv.isSome = true → df.isSome = true →
      Attribute.init name dv df = .error ambiguousMsg)
    ∧ (dv.isSome = false ∨ df.isSome = false →
      ∃ a, Attribute.init name dv df = .ok a ∧ a.name = name) := by
  constructor
  · intro h1 h2
    simp [Attribute.init, h1, h2]
  · intro h
    cases dv with
    | some v =>
      cases df with
      | some f => simp at h
      | none => exact ⟨⟨name, .value v⟩, rfl, rfl⟩
    | none =>
      cases df with
      | some f => exact ⟨⟨name, .factory f⟩, rfl, rfl⟩
      | none => exact ⟨⟨name, .noDefault⟩, rfl, rfl⟩

/-- Claim C8, witness: `Attribute("x", default_value=1,
default_factory=lambda: 2)` is rejected, while passing only the
default value succeeds. -/
theorem C8_witness :
    Attribute.init "x" (some (.vint 1)) (some fun _ => .vint 2)
      = .error ambiguousMsg
    ∧ ∃ a, Attribute.init "x" (some (.vint 1)) none = .ok a ∧ a.name = "x" :=
  ⟨(C8_conflicting_default_strategy "x" (some (.vint 1)) (some fun _ => .vint 2)).1
      rfl rfl,
   (C8_conflicting_default_strategy "x" (some (.vint 1)) none).2 (Or.inr rfl)⟩

/-- Claim C9: the legacy `defaults` mapping of `with_init` decides
"has a default" by truthiness, not by presence.  A mapped default of
`0` for attribute `x` is normalized to an attribute with no default,
so construction without `x` raises the missing-value error instead of
using `0`; the truthy default `1` is kept, for contrast. -/
theorem C9_falsy_default_dropped :
    with_initTransform [.name "x"] [("x", Val.vint 0)]
      = .ok [⟨"x", DefaultSpec.noDefault⟩]
    ∧ characteristic_init [⟨"x", DefaultSpec.noDefault⟩] ⟨"C", []⟩ []
      = .error (missingMsg "x")
    ∧ with_initTransform [.name "x"] [("x", Val.vint 1)]
      = .ok [⟨"x", DefaultSpec.value (Val.vint 1)⟩] :=
  ⟨rfl, rfl, rfl⟩

/-- Popping a key that is not in the keyword dictionary yields no
value. -/
theorem popKw_fst_of_not_mem (kw : List (String × Val)) (n : String)
    (h : n ∉ kw.map Prod.fst) : (popKw kw n).1 = none := by
  induction kw with
  | nil => rfl
  | cons p rest ih =>
    simp only [List.map_cons, List.mem_cons] at h
    push_neg at h
    have h1 : ¬ p.1 = n := fun hc => h.1 hc.symm
    simp [popKw, h1, ih h.2]

/-- Popping a key from the keyword dictionary introduces no new keys. -/
theorem popKw_keys_subset (kw : List (String × Val)) (n m : String)
    (h : m ∉ kw.map Prod.fst) : m ∉ (popKw kw n).2.map Prod.fst := by
  induction kw with
  | nil => simp [popKw]
  | cons p rest ih =>
    simp only [List.map_cons, List.mem_cons] at h
    push_neg at h
    by_cases hc : p.1 = n
    · simp only [popKw, if_pos hc]
      exact h.2
    · simp only [popKw, if_neg hc, List.map_cons, List.mem_cons]
      push_neg
      exact ⟨h.1, ih h.2⟩

/-- Claim C2 (amended): when some declared attribute has no default
and is not supplied as a keyword argument, `characteristic_init`
fails, and its error message names such an attribute — but not the
target type: the message is the same for every runtime class of the
instance under construction. -/
theorem C2_missing_required (attrs : List Attribute)
    (flds kw : List (String × Val))
    (h : ∃ a ∈ attrs, a.default = DefaultSpec.noDefault
          ∧ a.name ∉ kw.map Prod.fst) :
    ∃ a ∈ attrs, a.default = DefaultSpec.noDefault ∧
      ∀ cls : String,
        characteristic_init attrs ⟨cls, flds⟩ kw
          = .error (missingMsg a.name) := by
  induction attrs generalizing flds kw with
  | nil => simp at h
  | cons b rest ih =>
    obtain ⟨a, ha, had, hk⟩ := h
    rcases List.mem_cons.mp ha with hab | har
    · subst hab
      have hpop : (popKw kw a.name).1 = none :=
        popKw_fst_of_not_mem kw a.name hk
      refine ⟨a, List.mem_cons_self _ _, had, fun cls => ?_⟩
      simp [characteristic_init, hpop, had, resolveDefault]
    · cases hv : (match (popKw kw b.name).1 with
        | some v => some v
        | none => resolveDefault b.default : Option Val) with
      | none =>
        have hbd : b.default = DefaultSpec.noDefault := by
          cases hp : (popKw kw b.name).1 with
          | some v => rw [hp] at hv; simp at hv
          | none =>
            rw [hp] at hv
            simp at hv
            cases hdd : b.default with
            | noDefault => rfl
            | value v => rw [hdd] at hv; simp [resolveDefault] at hv
            | factory f => rw [hdd] at hv; simp [resolveDefault] at hv
        refine ⟨b, List.mem_cons_self _ _, hbd, fun cls => ?_⟩
        simp [characteristic_init, hv]
      | some v =>
        have hk' : a.name ∉ (popKw kw b.name).2.map Prod.fst :=
          popKw_keys_subset kw b.name a.name hk
        obtain ⟨a', ha', had', hall⟩ :=
          ih (setField flds b.name v) (popKw kw b.name).2 ⟨a, har, had, hk'⟩
        refine ⟨a', List.mem_cons_of_mem _ ha', had', fun cls => ?_⟩
        simp [characteristic_init, hv, rawSetattr]
        exact hall cls

/-- Claim C2, witness: a class with the single required attribute `id`
and no keyword arguments fails with the message naming `id`, whatever
the class is called. -/
theorem C2_witness :
    ∃ a, a ∈ [(⟨"id", DefaultSpec.noDefault⟩ : Attribute)]
      ∧ a.default = DefaultSpec.noDefault
      ∧ ∀ cls : String,
          characteristic_init [⟨"id", DefaultSpec.noDefault⟩] ⟨cls, []⟩ []
            = .error (missingMsg a.name) := by
  have h := C2_missing_required [⟨"id", DefaultSpec.noDefault⟩] [] []
    ⟨⟨"id", DefaultSpec.noDefault⟩, by simp, rfl, by simp⟩
  exact h

/-- Claim C2, counterexample to the claim as stated: constructing
`Foo` and `Bar` without the required `id` produces the identical
error text `Missing keyword value for 'id'.` — the message names the
attribute but cannot be naming the target type. -/
theorem C2_counterexample :
    characteristic_init [⟨"id", DefaultSpec.noDefault⟩] ⟨"Foo", []⟩ []
      = .error (missingMsg "id")
    ∧ characteristic_init [⟨"id", DefaultSpec.noDefault⟩] ⟨"Bar", []⟩ []
      = .error (missingMsg "id")
    ∧ missingMsg "id" = "Missing keyword value for 'id'." :=
  ⟨rfl, rfl, rfl⟩

/-- Claim C1 (amended): the sentry rejects a write to a declared
attribute with the error naming the field and the type whenever the
caller frame's code name is not one of `_VALID_INITS` (also when
there is no caller frame), and performs any write to a non-declared
field unconditionally. -/
theorem C1_sentry_amended (attrs : List String) (prev : Option Frame)
    (o : Obj) (v : Val) :
    (∀ n, n ∈ attrs → (∀ f, prev = some f → f.co_name ∉ _VALID_INITS) →
      characteristic_immutability_sentry attrs prev o n v
        = .error (immutMsg n o.cls))
    ∧ (∀ n, n ∉ attrs →
      characteristic_immutability_sentry attrs prev o n v
        = .ok (rawSetattr o n v)) := by
  constructor
  · intro n hn hf
    have hfa : frameAllowed prev = false := by
      cases prev with
      | none => rfl
      | some f => simp [frameAllowed, hf f rfl]
    unfold characteristic_immutability_sentry
    rw [if_neg]
    push_neg
    exact ⟨hn, by simp [hfa]⟩
  · intro n hn
    unfold characteristic_immutability_sentry
    rw [if_pos (Or.inl hn)]

/-- Claim C1, counterexample to the claim as stated: a caller that is
not the synthesized constructor — an unrelated function whose code
name happens to be `__init__` — successfully writes the protected
attribute `x` after construction. -/
theorem C1_counterexample :
    characteristic_immutability_sentry ["x"] (some ⟨"__init__", 99⟩) oA "x"
      (.vint 5) = .ok (rawSetattr oA "x" (.vint 5))
    ∧ "x" ∈ ["x"]
    ∧ (⟨"__init__", 99⟩ : Frame).co_name ≠ "characteristic_init" :=
  ⟨rfl, by simp, by simp⟩

/-- Claim C1, witness: from a module-level caller the protected write
fails with the error naming field `x` and class `P`, while the
non-declared field `z` is written unconditionally. -/
theorem C1_witness :
    characteristic_immutability_sentry ["x"] (some ⟨"module_level", 0⟩) oA "x"
      (.vint 5) = .error (immutMsg "x" "P")
    ∧ characteristic_immutability_sentry ["x"] (some ⟨"module_level", 0⟩) oA
      "z" (.vint 5) = .ok (rawSetattr oA "z" (.vint 5)) := by
  have h := C1_sentry_amended ["x"] (some ⟨"module_level", 0⟩) oA (.vint 5)
  refine ⟨?_, h.2 "z" (by simp)⟩
  have h1 := h.1 "x" (by simp) (fun f hf => by cases hf; decide)
  simpa [oA] using h1

/-- Claim C10: the sentry permits a write to any field — protected or
not — whenever the caller frame's code name is `characteristic_init`
or `__init__`, irrespective of the identity of the function object
that frame belongs to. -/
theorem C10_name_based_permission (attrs : List String) (f : Frame) (o : Obj)
    (n : String) (v : Val) (h : f.co_name ∈ _VALID_INITS) :
    characteristic_immutability_sentry attrs (some f) o n v
      = .ok (rawSetattr o n v) := by
  unfold characteristic_immutability_sentry
  rw [if_pos (Or.inr (by simp [frameAllowed, h]))]

/-- Claim C10, witness: a function object with arbitrary identity
`12345` named `__init__` mutates the protected field `x` without
raising. -/
theorem C10_witness :
    characteristic_immutability_sentry ["x"] (some ⟨"__init__", 12345⟩) oA "x"
      (.vint 7) = .ok (rawSetattr oA "x" (.vint 7)) :=
  C10_name_based_permission ["x"] ⟨"__init__", 12345⟩ oA "x" (.vint 7)
    (by decide)

/-- Claim C3: `eq` defers with `NotImplemented` when the runtime
classes differ (so a subtype, having a different runtime class, is
never equal to its base), returns the tuple equality of the declared
attribute values when they coincide, and `ne` is the logical negation
of `eq` propagating the deferral (and a raise) unchanged. -/
theorem C3_eq_ne_semantics (attrs : List Attribute) (a b : Obj) :
    (a.cls ≠ b.cls → with_cmp_eq attrs a b = .notImplemented
      ∧ with_cmp_ne attrs a b = .notImplemented)
    ∧ (∀ ta tb, b.cls = a.cls → attrs_to_tuple attrs a = some ta →
        attrs_to_tuple attrs b = some tb →
        with_cmp_eq attrs a b = .result (decide (ta = tb)))
    ∧ with_cmp_ne attrs a b = specNegate (with_cmp_eq attrs a b) := by
  refine ⟨?_, ?_, ?_⟩
  · intro hne
    have he : with_cmp_eq attrs a b = .notImplemented := by
      unfold with_cmp_eq
      rw [if_neg (fun h => hne h.symm)]
    exact ⟨he, by simp [with_cmp_ne, he]⟩
  · intro ta tb hcls hta htb
    unfold with_cmp_eq
    rw [if_pos hcls, hta, htb]
  · unfold with_cmp_ne specNegate
    cases with_cmp_eq attrs a b <;> rfl

/-- Claim C3, witness: an instance equals itself, equality with an
instance of the unrelated type `Q` defers with `NotImplemented`, and
`ne` on same-type instances with different values is true. -/
theorem C3_witness :
    with_cmp_eq attrsXY oA oA = .result true
    ∧ with_cmp_eq attrsXY oA oE = .notImplemented
    ∧ with_cmp_ne attrsXY oA oB = .result true := by
  refine ⟨?_, ?_, ?_⟩
  · have h := (C3_eq_ne_semantics attrsXY oA oA).2.1
      [.vint 1, .vint 2] [.vint 1, .vint 2] rfl rfl rfl
    simpa using h
  · exact ((C3_eq_ne_semantics attrsXY oA oE).1 (by decide)).1
  · have h := (C3_eq_ne_semantics attrsXY oA oB).2.2
    rw [h]
    have h2 := (C3_eq_ne_semantics attrsXY oA oB).2.1
      [.vint 1, .vint 2] [.vint 1, .vint 3] rfl rfl rfl
    rw [h2]
    decide

/-- Claim C4: `hash_` is the hash of the ordered tuple of declared
attribute values, and whenever `eq` returns true the hashes agree. -/
theorem C4_hash_consistent_with_eq (attrs : List Attribute) (a b : Obj) :
    (∀ t, attrs_to_tuple attrs a = some t →
      with_cmp_hash attrs a = .ok (pyHash t))
    ∧ (with_cmp_eq attrs a b = .result true →
      with_cmp_hash attrs a = with_cmp_hash attrs b) := by
  constructor
  · intro t ht
    simp [with_cmp_hash, ht]
  · intro heq
    unfold with_cmp_eq at heq
    by_cases hcls : b.cls = a.cls
    · rw [if_pos hcls] at heq
      cases hta : attrs_to_tuple attrs a with
      | none => rw [hta] at heq; cases htb : attrs_to_tuple attrs b <;>
          rw [htb] at heq <;> simp at heq
      | some ta =>
        cases htb : attrs_to_tuple attrs b with
        | none => rw [hta, htb] at heq; simp at heq
        | some tb =>
          rw [hta, htb] at heq
          simp only [PyCmp.result.injEq, decide_eq_true_eq] at heq
          simp [with_cmp_hash, hta, htb, heq]
    · rw [if_neg hcls] at heq
      simp at heq

/-- Claim C4, witness: two distinct instances of `P` with identical
attribute values hash alike, and the hash is the hash of the value
tuple. -/
theorem C4_witness :
    with_cmp_hash attrsXY oA = .ok (pyHash [.vint 1, .vint 2])
    ∧ with_cmp_hash attrsXY oA = with_cmp_hash attrsXY oF :=
  ⟨(C4_hash_consistent_with_eq attrsXY oA oF).1 [.vint 1, .vint 2] rfl,
   (C4_hash_consistent_with_eq attrsXY oA oF).2 (by decide)⟩

/-- Claim C7: over attributes `[x, y]` in that order, `lt` is
lexicographic with `x` compared first — `(x=1,y=2) < (x=1,y=3)` holds
and `(x=2,y=0) < (x=1,y=9)` does not — `lt` defers with
`NotImplemented` when the runtime classes differ, and in general on
integer fields `lt` decides `x1 < x2 or (x1 = x2 and y1 < y2)`. -/
theorem C7_lexicographic_lt :
    with_cmp_lt attrsXY oA oB = .result true
    ∧ with_cmp_lt attrsXY oC oD = .result false
    ∧ (∀ (attrs : List Attribute) (a b : Obj), a.cls ≠ b.cls →
        with_cmp_lt attrs a b = .notImplemented)
    ∧ (∀ (a b : Obj) (x1 y1 x2 y2 : Int), b.cls = a.cls →
        attrs_to_tuple attrsXY a = some [.vint x1, .vint y1] →
        attrs_to_tuple attrsXY b = some [.vint x2, .vint y2] →
        with_cmp_lt attrsXY a b
          = .result (decide (x1 < x2 ∨ (x1 = x2 ∧ y1 < y2)))) := by
  refine ⟨by decide, by decide, ?_, ?_⟩
  · intro attrs a b hne
    unfold with_cmp_lt with_cmp_ord
    rw [if_neg (fun h => hne h.symm)]
  · intro a b x1 y1 x2 y2 hcls hta htb
    unfold with_cmp_lt with_cmp_ord
    rw [if_pos hcls, hta, htb]
    by_cases hx : x1 = x2
    · subst hx
      by_cases hy : y1 = y2
      · subst hy
        simp [tupCmpExc]
      · have hvy : (Val.vint y1) ≠ (Val.vint y2) := by
          simp [hy]
        simp only [tupCmpExc, if_pos rfl, if_neg hvy, valCmpExc]
        by_cases h1 : y1 < y2
        · simp [h1]
        · have h2 : y2 < y1 := by omega
          simp [h1, h2]
    · have hvx : (Val.vint x1) ≠ (Val.vint x2) := by
        simp [hx]
      simp only [tupCmpExc, if_neg hvx, valCmpExc]
      by_cases h1 : x1 < x2
      · simp [h1]
      · have h2 : x2 < x1 := by omega
        simp [h1, h2]
        omega

/-- Claim C7, witness: the two concrete orderings of the claim, the
cross-type deferral, and the general lexicographic form evaluated at
`(x=2,y=0)` versus `(x=1,y=9)`. -/
theorem C7_witness :
    with_cmp_lt attrsXY oA oB = .result true
    ∧ with_cmp_lt attrsXY oA oE = .notImplemented
    ∧ with_cmp_lt attrsXY oC oD
      = .result (decide ((2:Int) < 1 ∨ ((2:Int) = 1 ∧ (0:Int) < 9))) :=
  ⟨C7_lexicographic_lt.1,
   C7_lexicographic_lt.2.2.1 attrsXY oA oE (by decide),
   C7_lexicographic_lt.2.2.2 oC oD 2 0 1 9 rfl rfl rfl⟩

/-- The normalization loop of `with_init` raises the mixing error as
soon as the attribute list contains an `Attribute` instance while the
`defaults` mapping is non-empty. -/
theorem with_initTransform_mixing (attrs : List AttrOrName)
    (d : List (String × Val)) (hd : d ≠ [])
    (ha : ∃ a, AttrOrName.spec a ∈ attrs) :
    with_initTransform attrs d = .error mixingMsg := by
  induction attrs with
  | nil => simp at ha
  | cons x rest ih =>
    cases x with
    | spec b => simp [with_initTransform, hd]
    | name s =>
      obtain ⟨a, ha'⟩ := ha
      rcases List.mem_cons.mp ha' with h | h
      · exact absurd h (by simp)
      · have ht := ih ⟨a, h⟩
        simp only [with_initTransform, ht]
        rfl

/-- Claim C6 (amended): mixing a non-empty legacy `defaults` mapping
with an `Attribute` instance carrying an explicit default fails with
the mixing error at composition time, and the initializer is never
attached — the `__init__`, `__original_init__` and
`__characteristic_setattr__` slots keep their prior values. -/
theorem C6_mixing_defaults (attrs : List AttrOrName) (d : List (String × Val))
    (mi : Bool) (cl : Cls) (hd : d ≠ [])
    (ha : ∃ a v, AttrOrName.spec a ∈ attrs
          ∧ a.default = DefaultSpec.value v) :
    (attributesWrap attrs (some d) true mi cl).2.2 = some mixingMsg
    ∧ (attributesWrap attrs (some d) true mi cl).1.init = cl.init
    ∧ (attributesWrap attrs (some d) true mi cl).1.original_init
        = cl.original_init
    ∧ (attributesWrap attrs (some d) true mi cl).1.characteristic_setattr
        = cl.characteristic_setattr := by
  obtain ⟨a, v, hmem, _⟩ := ha
  have ht : with_initTransform attrs d = .error mixingMsg :=
    with_initTransform_mixing attrs d hd ⟨a, hmem⟩
  cases mi <;>
    simp [attributesWrap, ht, with_cmpWrap, with_reprWrap, immutableWrap]

/-- Claim C6, counterexample to the claim as stated: when the mixing
error escapes the composer, the target class has already been mutated
— the comparison and representation methods are installed and the
`__setattr__` slot already holds the sentry, none of which held
before composition. -/
theorem C6_counterexample :
    ((attributesWrap [.spec ⟨"x", .value (.vint 1)⟩] (some [("y", .vint 2)])
        true true cls0).2.2 = some mixingMsg)
    ∧ ((attributesWrap [.spec ⟨"x", .value (.vint 1)⟩] (some [("y", .vint 2)])
        true true cls0).1.eq_attrs.isSome = true)
    ∧ ((attributesWrap [.spec ⟨"x", .value (.vint 1)⟩] (some [("y", .vint 2)])
        true true cls0).1.repr_attrs.isSome = true)
    ∧ ((attributesWrap [.spec ⟨"x", .value (.vint 1)⟩] (some [("y", .vint 2)])
        true true cls0).1.setattr = SetattrSlot.sentry ["x"])
    ∧ cls0.eq_attrs = none ∧ cls0.repr_attrs = none
    ∧ cls0.setattr = SetattrSlot.default :=
  ⟨rfl, rfl, rfl, rfl, rfl, rfl, rfl⟩

/-- Claim C6, witness: composing attribute `x` with default `1`
together with the legacy mapping `{y: 2}` yields the mixing error and
leaves the initializer slot untouched. -/
theorem C6_witness :
    ((attributesWrap [.spec ⟨"x", .value (.vint 1)⟩] (some [("y", .vint 2)])
        true true cls0).2.2 = some mixingMsg)
    ∧ (attributesWrap [.spec ⟨"x", .value (.vint 1)⟩] (some [("y", .vint 2)])
        true true cls0).1.init = cls0.init := by
  have h := C6_mixing_defaults [.spec ⟨"x", .value (.vint 1)⟩]
    [("y", .vint 2)] true cls0 (by simp)
    ⟨⟨"x", .value (.vint 1)⟩, .vint 1, List.mem_singleton.mpr rfl, rfl⟩
  exact ⟨h.1, h.2.1⟩

/-- Claim C5 (amended): the composer attaches representation, then
comparison, then (if enabled) the immutability guard, then the
initializer; the guard captures the pre-guard raw write in
`__original_setattr__`, and the initializer's write path
`__characteristic_setattr__` is bound to that captured raw write (to
the type's ordinary write primitive when no guard is installed), so
construction-time writes bypass the guard. -/
theorem C5_composition_order (attrs : List AttrOrName)
    (d : Option (List (String × Val))) (mi : Bool) (cl : Cls)
    (h0 : cl.original_setattr = none) (hs : cl.setattr = SetattrSlot.default)
    (hok : (attributesWrap attrs d true mi cl).2.2 = none) :
    (attributesWrap attrs d true mi cl).2.1
      = (if mi then ["with_repr", "with_cmp", "immutable", "with_init"]
         else ["with_repr", "with_cmp", "with_init"])
    ∧ (attributesWrap attrs d true mi cl).1.eq_attrs
        = some (_ensure_attributes attrs)
    ∧ (attributesWrap attrs d true mi cl).1.repr_attrs
        = some (_ensure_attributes attrs)
    ∧ (mi = true →
        (attributesWrap attrs d true mi cl).1.setattr
          = SetattrSlot.sentry (protectedNames attrs)
        ∧ (attributesWrap attrs d true mi cl).1.original_setattr
          = some SetattrSlot.default)
    ∧ (mi = false →
        (attributesWrap attrs d true mi cl).1.setattr = SetattrSlot.default)
    ∧ (attributesWrap attrs d true mi cl).1.characteristic_setattr
        = some SetattrSlot.default
    ∧ (mi = true →
        some ((attributesWrap attrs d true mi cl).1.setattr)
          ≠ (attributesWrap attrs d true mi cl).1.characteristic_setattr)
    ∧ (attributesWrap attrs d true mi cl).1.original_init = some cl.init
    ∧ (∃ attrs2, with_initTransform attrs (d.getD []) = .ok attrs2
        ∧ (attributesWrap attrs d true mi cl).1.init
          = InitSlot.characteristic attrs2) := by
  cases ht : with_initTransform attrs (d.getD []) with
  | error e =>
    rw [show (attributesWrap attrs d true mi cl).2.2
      = some e from by cases mi <;> simp [attributesWrap, ht]] at hok
    exact absurd hok (by simp)
  | ok attrs2 =>
    cases mi <;>
      simp [attributesWrap, ht, with_cmpWrap, with_reprWrap, immutableWrap,
        with_initWrap, h0, hs]

/-- Claim C5, counterexample to the claim as stated: the composition
trace on a fresh class is representation before comparison, not the
claimed comparison-first order. -/
theorem C5_counterexample :
    (attributesWrap [.name "x"] none true true cls0).2.1
      = ["with_repr", "with_cmp", "immutable", "with_init"]
    ∧ (["with_repr", "with_cmp", "immutable", "with_init"] : List String)
      ≠ ["with_cmp", "with_repr", "immutable", "with_init"] :=
  ⟨rfl, by decide⟩

/-- Claim C5, witness: on a fresh class with the guard enabled, the
initializer's write path is the raw default write while the public
`__setattr__` is the sentry, and the guard captured the raw write. -/
theorem C5_witness :
    (attributesWrap [.name "x"] none true true cls0).1.characteristic_setattr
      = some SetattrSlot.default
    ∧ (attributesWrap [.name "x"] none true true cls0).1.setattr
      = SetattrSlot.sentry (protectedNames [.name "x"])
    ∧ (attributesWrap [.name "x"] none true true cls0).1.original_setattr
      = some SetattrSlot.default := by
  obtain ⟨-, -, -, h4, -, h6, -, -, -⟩ :=
    C5_composition_order [.name "x"] none true cls0 rfl rfl rfl
  exact ⟨h6, (h4 rfl).1, (h4 rfl).2⟩

end Characteristic
